import Mathlib

/-!
Shallow embedding of the cpf-cnpj-brasil library (Brazilian CPF/CNPJ
validation).  Python strings are modelled as `List Char`, Python `int` as
`Int`, raised exceptions as the error side of `Except`.  Digit characters
and `str.isdigit` are modelled over ASCII.  The embedded functions follow
`src/cpf_cnpj_brasil/cpf_validator_gemini.py`,
`src/cpf_cnpj_brasil/cnpj_validator_gemini.py`,
`src/cpf_cnpj_brasil/cnpj_validator.py` and `utils.py`.
-/

namespace CpfCnpj

/-- Decidable equality for `Except`, so concrete runs of the embedded
functions can be checked by `decide`. -/
instance instDecEqExcept {ε α : Type} [DecidableEq ε] [DecidableEq α] :
    DecidableEq (Except ε α) := fun a b =>
  match a, b with
  | .error e, .error f =>
      if h : e = f then isTrue (by rw [h])
      else isFalse (by simp only [Except.error.injEq]; exact h)
  | .error _, .ok _ => isFalse (fun hh => Except.noConfusion hh)
  | .ok _, .error _ => isFalse (fun hh => Except.noConfusion hh)
  | .ok x, .ok y =>
      if h : x = y then isTrue (by rw [h])
      else isFalse (by simp only [Except.ok.injEq]; exact h)

/-- Characters of a string literal, used to write `List Char` values. -/
def chars (s : String) : List Char := s.data

/-- ASCII decimal digit test (model of a `\d` character / per-char
`isdigit`): code points 48..57, i.e. the characters 0 to 9. -/
def isDigitChar (c : Char) : Bool := 48 ≤ c.toNat && c.toNat ≤ 57

/-- Numeric value of an ASCII digit character (`int(ch)` on one digit). -/
def digitVal (c : Char) : Nat := c.toNat - 48

/-- Python `str.isdigit`: nonempty and every character a digit. -/
def pyIsdigit (s : List Char) : Bool := !s.isEmpty && s.all isDigitChar

/-- Upper-case ASCII letter test: code points 65..90, A to Z. -/
def isUpperAZ (c : Char) : Bool := 65 ≤ c.toNat && c.toNat ≤ 90

/-- Lower-case ASCII letter test: code points 97..122, a to z. -/
def isLowerAZ (c : Char) : Bool := 97 ≤ c.toNat && c.toNat ≤ 122

/-- Characters allowed in a clean CNPJ: `[A-Z0-9]`. -/
def isAlnumUpper (c : Char) : Bool := isDigitChar c || isUpperAZ c

/-- Python `str.upper` on one character (ASCII part, which is all the
library ever relies on). -/
def pyUpperChar (c : Char) : Char :=
  if isLowerAZ c then Char.ofNat (c.toNat - 32) else c

/-- Python `str.upper`. -/
def pyUpper (s : List Char) : List Char := s.map pyUpperChar

/-- Python `\s` whitespace class (ASCII part). -/
def isPyWhitespace (c : Char) : Bool :=
  c = ' ' || c = '\t' || c = '\n' || c = '\r' || c = '\x0b' || c = '\x0c'

/-- Model of the punctuation-stripping `re.sub` (pattern: dot, dash, slash
or whitespace): drop those characters, keep everything else. -/
def stripPunct (s : List Char) : List Char :=
  s.filter (fun c => !(c = '.' || c = '-' || c = '/' || isPyWhitespace c))

/-- Model of the digit-filtering `re.sub` (pattern: non-digit, replaced by
nothing): keep only the digit characters. -/
def keepDigits (s : List Char) : List Char := s.filter isDigitChar

/-- Decimal rendering of a natural number, as Python `str` renders it
(via the fuel-based core renderer `Nat.toDigits`). -/
def natDigits (n : Nat) : List Char := Nat.toDigits 10 n

/-- Python `str(n)` for an arbitrary integer: optional minus sign followed
by the decimal digits of the absolute value. -/
def pyStrInt (n : Int) : List Char :=
  if n < 0 then '-' :: natDigits n.natAbs else natDigits n.natAbs

/-- Python `str.zfill(width)`: left-pad with zeros up to `width`; a leading
sign stays in front of the inserted zeros. -/
def zfill (s : List Char) (width : Nat) : List Char :=
  if width ≤ s.length then s
  else
    match s with
    | '-' :: rest => '-' :: (List.replicate (width - s.length) '0' ++ rest)
    | '+' :: rest => '+' :: (List.replicate (width - s.length) '0' ++ rest)
    | _ => List.replicate (width - s.length) '0' ++ s

/-- Model of the Python check `s == s[0] * len(s)` (the code only reaches it
on nonempty strings). -/
def allSame (s : List Char) : Bool :=
  match s with
  | [] => true
  | c :: _ => s == List.replicate s.length c

/-- Inputs to the validators: Python `str`, `int`, or a value of any other
type (`None`, `float`, ...). -/
inductive PyInput
  | int (n : Int)
  | str (s : List Char)
  | other
deriving DecidableEq, Repr

/-- Exceptions raised by the CPF module: `CPFValidationError` from
`_validate_input_format` / `_calculate_digit`, and the builtin `ValueError`
that `int(ch)` raises on a non-digit character. -/
inductive CpfError
  | badFormat      -- CPFValidationError: not exactly 11 numeric digits
  | notStrInt      -- CPFValidationError: input neither str nor int
  | partialLength  -- CPFValidationError: partial not 9 or 10 digits
  | intParse       -- builtin ValueError from int(ch)
deriving DecidableEq, Repr

/-- Digit from a weighted total, shared by both check-digit calculators:
remainder mod 11, then 0 when the remainder is under 2, else 11 minus the
remainder. -/
def digitOfTotal (total : Nat) : Nat :=
  if total % 11 < 2 then 0 else 11 - total % 11

namespace CPF

/-- Weight sequence `list(range(10, 1, -1))` of `CPF._SEQUENCE1`. -/
def SEQUENCE1 : List Nat := [10, 9, 8, 7, 6, 5, 4, 3, 2]

/-- Weight sequence `list(range(11, 1, -1))` of `CPF._SEQUENCE2`. -/
def SEQUENCE2 : List Nat := [11, 10, 9, 8, 7, 6, 5, 4, 3, 2]

/-- Embedding of `CPF._validate_input_format`: an int is rendered and
zero-filled to 11, a string is taken as is, anything else raises; then the
non-digits are stripped and the result must be exactly 11 digits. -/
def validateInputFormat (cpf : PyInput) : Except CpfError (List Char) :=
  match cpf with
  | .int n =>
      let nd := keepDigits (zfill (pyStrInt n) 11)
      if nd.length = 11 && pyIsdigit nd then .ok nd else .error .badFormat
  | .str s =>
      let nd := keepDigits s
      if nd.length = 11 && pyIsdigit nd then .ok nd else .error .badFormat
  | .other => .error .notStrInt

/-- Embedding of `int(digit)` on a single character of the partial. -/
def intChar (c : Char) : Except CpfError Nat :=
  if isDigitChar c then .ok (digitVal c) else .error .intParse

/-- The generator `sum(int(digit) * weight for digit, weight in
zip(partial_cpf, sequence))`: the first non-digit character raises. -/
def weightedSum : List Char → List Nat → Except CpfError Nat
  | [], _ => .ok 0
  | _, [] => .ok 0
  | c :: cs, w :: ws =>
      match intChar c with
      | .error e => .error e
      | .ok v =>
          match weightedSum cs ws with
          | .error e => .error e
          | .ok rest => .ok (v * w + rest)

/-- Embedding of `CPF._calculate_digit`. -/
def calculateDigit (partialCpf : List Char) : Except CpfError Nat :=
  if partialCpf.length = 9 then
    match weightedSum partialCpf SEQUENCE1 with
    | .error e => .error e
    | .ok total => .ok (digitOfTotal total)
  else if partialCpf.length = 10 then
    match weightedSum partialCpf SEQUENCE2 with
    | .error e => .error e
    | .ok total => .ok (digitOfTotal total)
  else .error .partialLength

/-- Rendering of `XXX.XXX.XXX-XX` from 11 clean digits. -/
def render (c : List Char) : List Char :=
  c.take 3 ++ ['.'] ++ ((c.drop 3).take 3) ++ ['.'] ++ ((c.drop 6).take 3)
    ++ ['-'] ++ c.drop 9

/-- Embedding of `CPF.format`: validate the input format, then render. -/
def format (cpf : PyInput) : Except CpfError (List Char) :=
  match validateInputFormat cpf with
  | .error e => .error e
  | .ok c => .ok (render c)

/-- Embedding of `CPF.validate`.  The `try` covers only
`_validate_input_format`; a `CPFValidationError` there becomes `False`
(modelled as `.ok none`); errors from `_calculate_digit` would propagate. -/
def validate (cpf : PyInput) : Except CpfError (Option (List Char)) :=
  match validateInputFormat cpf with
  | .error _ => .ok none
  | .ok ds =>
      if allSame ds then .ok none
      else
        match calculateDigit (ds.take 9) with
        | .error e => .error e
        | .ok d1 =>
            match calculateDigit (ds.take 9 ++ natDigits d1) with
            | .error e => .error e
            | .ok d2 =>
                if ds.drop (ds.length - 2) = natDigits d1 ++ natDigits d2 then
                  .ok (some ds)
                else .ok none

end CPF

/-- Exceptions of the CNPJ modules.  The checksum / format functions raise
`ValueError` (mapped to the first constructors); the lookup client can see
`requests` transport exceptions, an HTTP error status, or a `KeyError` from
direct body indexing in the legacy client. -/
inductive CnpjError
  | intFormat        -- ValueError: int input not 14 numeric digits
  | lengthNot14      -- ValueError: cleaned string not 14 characters
  | badCharset       -- ValueError: character outside A-Z / 0-9
  | notStrInt        -- ValueError: input neither str nor int
  | partialLength    -- ValueError: partial not 12 or 13 characters
  | invalidChar (c : Char)  -- ValueError from _character_to_value
  | invalidBranch    -- ValueError raised by find_matrix on invalid input
  | noReleaseDate    -- ValueError: release timestamp pattern not found
  | badTzOffset      -- ValueError from timezone(): offset not under 24h
  | badDate          -- ValueError from strptime / datetime construction
  | ssl              -- requests.exceptions.SSLError re-raised
  | timedOut         -- requests.exceptions.Timeout re-raised
  | connection       -- requests.exceptions.ConnectionError re-raised
  | requestFail      -- requests.exceptions.RequestException re-raised
  | httpStatus (code : Nat)  -- HTTPError from response.raise_for_status()
  | keyError         -- KeyError from body["titulo"] / body["detalhes"]
  | noResponse       -- modelling artifact: the response oracle ran out
deriving DecidableEq, Repr

namespace CNPJ

/-- Weight sequence `CNPJ._SEQUENCE1`. -/
def SEQUENCE1 : List Nat := [5, 4, 3, 2, 9, 8, 7, 6, 5, 4, 3, 2]

/-- Weight sequence `CNPJ._SEQUENCE2 = [6] + _SEQUENCE1`. -/
def SEQUENCE2 : List Nat := [6, 5, 4, 3, 2, 9, 8, 7, 6, 5, 4, 3, 2]

/-- Embedding of `CNPJ._character_to_value`: `value = ord(ch) - 48`,
accepted when it lands in 0..9 or 17..42.  The subtraction is on `Int`
because Python sees a negative value for characters below the digit `0`;
the accepted value is returned as a `Nat` (it is nonnegative). -/
def characterToValue (c : Char) : Except CnpjError Nat :=
  let v : Int := (c.toNat : Int) - 48
  if (0 ≤ v && v ≤ 9) || (17 ≤ v && v ≤ 42) then .ok v.toNat
  else .error (.invalidChar c)

/-- Embedding of `CNPJ._validate_input_format`. -/
def validateInputFormat (cnpj : PyInput) : Except CnpjError (List Char) :=
  match cnpj with
  | .int n =>
      let s := zfill (pyStrInt n) 14
      if s.length = 14 && pyIsdigit s then .ok s else .error .intFormat
  | .str s =>
      let clean := stripPunct (pyUpper s)
      if clean.length ≠ 14 then .error .lengthNot14
      else if !(clean.all isAlnumUpper) then .error .badCharset
      else .ok clean
  | .other => .error .notStrInt

/-- The generator `sum(CNPJ._character_to_value(d) * w for d, w in
zip(partial_cnpj, sequence))`: the first illegal character raises. -/
def weightedSum : List Char → List Nat → Except CnpjError Nat
  | [], _ => .ok 0
  | _, [] => .ok 0
  | c :: cs, w :: ws =>
      match characterToValue c with
      | .error e => .error e
      | .ok v =>
          match weightedSum cs ws with
          | .error e => .error e
          | .ok rest => .ok (v * w + rest)

/-- Embedding of `CNPJ._calculate_digit`. -/
def calculateDigit (partialCnpj : List Char) : Except CnpjError Nat :=
  if partialCnpj.length = 12 then
    match weightedSum partialCnpj SEQUENCE1 with
    | .error e => .error e
    | .ok total => .ok (digitOfTotal total)
  else if partialCnpj.length = 13 then
    match weightedSum partialCnpj SEQUENCE2 with
    | .error e => .error e
    | .ok total => .ok (digitOfTotal total)
  else .error .partialLength

/-- Rendering of `AA.AAA.AAA/AAAA-DV` from 14 clean characters. -/
def render (c : List Char) : List Char :=
  c.take 2 ++ ['.'] ++ ((c.drop 2).take 3) ++ ['.'] ++ ((c.drop 5).take 3)
    ++ ['/'] ++ ((c.drop 8).take 4) ++ ['-'] ++ c.drop 12

/-- Embedding of `CNPJ.format`: validate the input format, then render. -/
def format (cnpj : PyInput) : Except CnpjError (List Char) :=
  match validateInputFormat cnpj with
  | .error e => .error e
  | .ok c => .ok (render c)

/-- Embedding of `CNPJ.validate`.  The `try` covers only
`_validate_input_format`; a `ValueError` there becomes `False` (modelled
as `.ok none`); errors from `_calculate_digit` would propagate. -/
def validate (cnpj : PyInput) : Except CnpjError (Option (List Char)) :=
  match validateInputFormat cnpj with
  | .error _ => .ok none
  | .ok c =>
      if allSame c then .ok none
      else
        match calculateDigit (c.take 12) with
        | .error e => .error e
        | .ok d1 =>
            match calculateDigit (c.take 12 ++ natDigits d1) with
            | .error e => .error e
            | .ok d2 =>
                if c.drop (c.length - 2) = natDigits d1 ++ natDigits d2 then
                  .ok (some c)
                else .ok none

/-- Embedding of `CNPJ.find_matrix`: validate the branch CNPJ, keep its
first 8 characters, append the literal suffix `0001`, recompute both check
digits, and format the result. -/
def findMatrix (branchCnpj : PyInput) : Except CnpjError (List Char) :=
  match validate branchCnpj with
  | .error e => .error e
  | .ok none => .error .invalidBranch
  | .ok (some c) =>
      let pm := c.take 8 ++ chars ("0001")
      match calculateDigit pm with
      | .error e => .error e
      | .ok d1 =>
          match calculateDigit (pm ++ natDigits d1) with
          | .error e => .error e
          | .ok d2 => format (.str (pm ++ natDigits d1 ++ natDigits d2))

end CNPJ

namespace Legacy

/-- Embedding of the legacy `CNPJValidator.validate_cnpj`
(`cnpj_validator.py`).  Its helpers `_validate_input_format`,
`_character_to_value` and `_calculate_digit` are verbatim duplicates of the
ones in `cnpj_validator_gemini.py`, so the embedded `CNPJ` versions are
reused.  Unlike `CNPJ.validate` it catches nothing (format errors
propagate) and it has no all-characters-identical rejection. -/
def validateCnpj (cnpj : PyInput) : Except CnpjError Bool := do
  let c ← CNPJ.validateInputFormat cnpj
  let d1 ← CNPJ.calculateDigit (c.take 12)
  let d2 ← CNPJ.calculateDigit (c.take 12 ++ natDigits d1)
  .ok (c.drop (c.length - 2) == natDigits d1 ++ natDigits d2)

end Legacy

/-- Parsed JSON body of an API response, restricted to the two fields the
client reads.  `none` models a missing key (`dict.get` then falls back to
its default; direct indexing raises `KeyError`). -/
structure ApiBody where
  titulo : Option (List Char) := none
  detalhes : Option (List Char) := none
deriving DecidableEq, Repr

/-- Outcome of one HTTP GET: a response with a status code and parsed JSON
body, or one of the `requests` transport exceptions. -/
inductive HttpOutcome
  | resp (status : Nat) (body : ApiBody)
  | sslError
  | timeoutError
  | connectionError
  | requestError
deriving DecidableEq, Repr

/-- Fields captured by the release-timestamp regex: the two alphabetic
tokens of group 1, its numeric fields, and the signed offset of group 2. -/
structure TsGroups where
  wday : List Char
  mon : List Char
  day : Nat
  year : Nat
  hour : Nat
  minute : Nat
  second : Nat
  tzNeg : Bool
  tzh : Nat
  tzm : Nat
deriving DecidableEq, Repr

/-- Match one-or-more whitespace (the `\s+` atoms; what follows each run is
never whitespace, so greedy matching needs no backtracking). -/
def matchWs : List Char → Option (List Char)
  | c :: rest =>
      if isPyWhitespace c then some (rest.dropWhile isPyWhitespace) else none
  | [] => none

/-- Match an upper-case letter followed by two lower-case letters. -/
def matchNameTok : List Char → Option (List Char × List Char)
  | a :: b :: c :: rest =>
      if isUpperAZ a && isLowerAZ b && isLowerAZ c then some ([a, b, c], rest)
      else none
  | _ => none

/-- Match exactly two digits, returning their value. -/
def matchTwoDigits : List Char → Option (Nat × List Char)
  | a :: b :: rest =>
      if isDigitChar a && isDigitChar b then
        some (digitVal a * 10 + digitVal b, rest)
      else none
  | _ => none

/-- Match exactly four digits, returning their value. -/
def matchFourDigits : List Char → Option (Nat × List Char)
  | a :: b :: c :: d :: rest =>
      if isDigitChar a && isDigitChar b && isDigitChar c && isDigitChar d then
        some (digitVal a * 1000 + digitVal b * 100 + digitVal c * 10
          + digitVal d, rest)
      else none
  | _ => none

/-- Match a literal colon. -/
def matchColon : List Char → Option (List Char)
  | ':' :: rest => some rest
  | _ => none

/-- Match the literal text `GMT`. -/
def matchGMT : List Char → Option (List Char)
  | 'G' :: 'M' :: 'T' :: rest => some rest
  | _ => none

/-- Match the sign of the offset, `true` for minus. -/
def matchSign : List Char → Option (Bool × List Char)
  | '+' :: rest => some (false, rest)
  | '-' :: rest => some (true, rest)
  | _ => none

/-- Try to match the whole release-timestamp pattern at the head of the
text: weekday, month, day, year, HH:MM:SS, the literal GMT and a signed
4-digit offset, with one-or-more whitespace between the fields. -/
def tryMatchAt (s : List Char) : Option TsGroups := do
  let (wd, s) ← matchNameTok s
  let s ← matchWs s
  let (mo, s) ← matchNameTok s
  let s ← matchWs s
  let (d, s) ← matchTwoDigits s
  let s ← matchWs s
  let (y, s) ← matchFourDigits s
  let s ← matchWs s
  let (h, s) ← matchTwoDigits s
  let s ← matchColon s
  let (mi, s) ← matchTwoDigits s
  let s ← matchColon s
  let (sec, s) ← matchTwoDigits s
  let s ← matchWs s
  let s ← matchGMT s
  let (neg, s) ← matchSign s
  let (th, s) ← matchTwoDigits s
  let (tm, _) ← matchTwoDigits s
  some { wday := wd, mon := mo, day := d, year := y, hour := h, minute := mi,
         second := sec, tzNeg := neg, tzh := th, tzm := tm }

/-- Model of `re.search` for the fixed pattern: the match at the leftmost
position where one exists (the pattern is deterministic, so the leftmost
match is found by trying every start position in order). -/
def reSearchTs : List Char → Option TsGroups
  | [] => none
  | c :: rest =>
      match tryMatchAt (c :: rest) with
      | some g => some g
      | none => reSearchTs rest

/-- Month names accepted by `strptime` for the `%b` directive, in the
capitalised form the regex admits. -/
def MONTHS : List (List Char) :=
  [chars ("Jan"), chars ("Feb"), chars ("Mar"), chars ("Apr"), chars ("May"),
   chars ("Jun"), chars ("Jul"), chars ("Aug"), chars ("Sep"), chars ("Oct"),
   chars ("Nov"), chars ("Dec")]

/-- Weekday names accepted by `strptime` for the `%a` directive. -/
def WEEKDAYS : List (List Char) :=
  [chars ("Mon"), chars ("Tue"), chars ("Wed"), chars ("Thu"), chars ("Fri"),
   chars ("Sat"), chars ("Sun")]

/-- Month number (1..12) of a month name, if it is one. -/
def monthNumber (m : List Char) : Option Nat :=
  (MONTHS.indexOf? m).map (· + 1)

/-- Gregorian leap-year test, as `datetime` uses it. -/
def isLeapYear (y : Nat) : Bool := y % 4 = 0 && (y % 100 ≠ 0 || y % 400 = 0)

/-- Days in a month of a given year. -/
def daysInMonth (y m : Nat) : Nat :=
  if m = 2 then (if isLeapYear y then 29 else 28)
  else if m = 4 || m = 6 || m = 9 || m = 11 then 30
  else 31

/-- Days in the years before year `y` of the proleptic Gregorian calendar
(the `_days_before_year` of Python `datetime`). -/
def daysBeforeYear (y : Nat) : Nat :=
  (y - 1) * 365 + (y - 1) / 4 - (y - 1) / 100 + (y - 1) / 400

/-- Days in the months of year `y` before month `m`
(the `_days_before_month` of Python `datetime`). -/
def daysBeforeMonth (y m : Nat) : Nat :=
  [0, 31, 59, 90, 120, 151, 181, 212, 243, 273, 304, 334].getD (m - 1) 0
    + (if 2 < m && isLeapYear y then 1 else 0)

/-- Seconds of the naive datetime on the proleptic Gregorian time scale
(ordinal day times 86400 plus the time of day); instants below are measured
on this same scale, so only differences of these values matter. -/
def naiveSeconds (g : TsGroups) (m : Nat) : Int :=
  (((daysBeforeYear g.year + daysBeforeMonth g.year m + g.day) * 86400
    + g.hour * 3600 + g.minute * 60 + g.second : Nat) : Int)

/-- Offset seconds of the `timezone` the code builds from the matched
groups: `hours=int(sign..HH)` and `minutes=int(sign..MM)`, both carrying the
sign, summed as a `timedelta`. -/
def tzOffsetSeconds (g : TsGroups) : Int :=
  if g.tzNeg then -((g.tzh : Int) * 3600 + (g.tzm : Int) * 60)
  else (g.tzh : Int) * 3600 + (g.tzm : Int) * 60

/-- Turn matched groups into the instant they denote.  Mirrors the code
path: first `timezone(timedelta(...))` (which requires the offset to be
strictly under 24 hours), then `strptime` / `datetime` validation of the
calendar fields, finally the aware instant (naive seconds minus offset). -/
def parseReleaseInstant (g : TsGroups) : Except CnpjError Int :=
  let off := tzOffsetSeconds g
  if 86400 ≤ off.natAbs then .error .badTzOffset
  else if !(WEEKDAYS.contains g.wday) then .error .badDate
  else
    match monthNumber g.mon with
    | none => .error .badDate
    | some m =>
        if g.year = 0 then .error .badDate
        else if g.day = 0 || daysInMonth g.year m < g.day then .error .badDate
        else if 23 < g.hour || 59 < g.minute || 59 < g.second then
          .error .badDate
        else .ok (naiveSeconds g m - off)

/-- Embedding of `CNPJ._extract_and_wait_for_release`: search the error
message for the timestamp pattern (no match raises), parse the release
instant, and return the wait `release - now` in seconds, clamped at 0 when
the release already passed.  `now` is the current instant, passed
explicitly (the code reads the clock). -/
def extractAndWaitForRelease (errorMessage : List Char) (now : Int) :
    Except CnpjError Int :=
  match reSearchTs errorMessage with
  | none => .error .noReleaseDate
  | some g =>
      match parseReleaseInstant g with
      | .error e => .error e
      | .ok release =>
          if release - now ≤ 0 then .ok 0 else .ok (release - now)

namespace CNPJ

/-- Embedding of `CNPJ._investigate_cnpj` over an oracle of HTTP outcomes,
one consumed per GET.  Transport exceptions are re-raised with their kind;
200 returns the body, 404 returns `none`; 429 extracts the release wait
(errors propagate), sleeps it out and retries the same request; an error
status raises via `raise_for_status`, and any remaining status falls off
the end of the Python function, returning `None`.  The clock is frozen at
`now`; an exhausted oracle is a modelling artifact (`noResponse`). -/
def investigateAux (cnpj : List Char) (now : Int) :
    List HttpOutcome → Except CnpjError (Option ApiBody)
  | [] => .error .noResponse
  | .sslError :: _ => .error .ssl
  | .timeoutError :: _ => .error .timedOut
  | .connectionError :: _ => .error .connection
  | .requestError :: _ => .error .requestFail
  | .resp code body :: rest =>
      if code = 200 then .ok (some body)
      else if code = 404 then .ok none
      else if code = 429 then
        match extractAndWaitForRelease (body.detalhes.getD []) now with
        | .error e => .error e
        | .ok _wait => investigateAux cnpj now rest
      else if 400 ≤ code && code < 600 then .error (.httpStatus code)
      else .ok none

/-- Embedding of the public `CNPJ.investigate`: validate first, an invalid
CNPJ short-circuits to `None` without touching the network. -/
def investigate (cnpj : PyInput) (now : Int) (outcomes : List HttpOutcome) :
    Except CnpjError (Option ApiBody) :=
  match validate cnpj with
  | .error e => .error e
  | .ok none => .ok none
  | .ok (some c) => investigateAux c now outcomes

end CNPJ

namespace Legacy

/-- Embedding of the legacy `CNPJValidator.investigate`
(`cnpj_validator.py`).  It validates the format (errors propagate), issues
one GET, and: returns the body on 200; prints and falls through to `None`
on 404 and on 429 (after sleeping out the extracted wait — no retry);
catches every transport exception, prints a message and returns `None`;
`KeyError` from the direct `body` indexing on 404/429 propagates. -/
def investigate (cnpj : PyInput) (now : Int) (outcomes : List HttpOutcome) :
    Except CnpjError (Option ApiBody) :=
  match CNPJ.validateInputFormat cnpj with
  | .error e => .error e
  | .ok _c =>
      match outcomes with
      | [] => .error .noResponse
      | .sslError :: _ => .ok none
      | .timeoutError :: _ => .ok none
      | .connectionError :: _ => .ok none
      | .requestError :: _ => .ok none
      | .resp code body :: _rest =>
          if code = 200 then .ok (some body)
          else if code = 404 then
            match body.titulo, body.detalhes with
            | some _, some _ => .ok none
            | _, _ => .error .keyError
          else if code = 429 then
            match body.titulo, body.detalhes with
            | some _, some d =>
                match extractAndWaitForRelease d now with
                | .error e => .error e
                | .ok _wait => .ok none
            | _, _ => .error .keyError
          else .ok none

end Legacy

/-! ### Specification-side definitions

These two definitions follow the wording of the specification of the
check-digit calculation (not the code), to be compared with the embedded
calculators: map each character to its value, multiply positionally by the
weights, sum, take the remainder mod 11, and return 0 if the remainder is
less than 2, else 11 minus the remainder. -/

/-- Character value as the spec words it: a digit is its face value, a
letter A to Z is 17..42, both via code point minus 48 — which is exactly
`digitVal`. -/
def specCharValue (c : Char) : Nat := c.toNat - 48

/-- The check digit the spec describes, over the value and weight
sequences. -/
def specCheckDigit (values weights : List Nat) : Nat :=
  if (List.zipWith (fun v w => v * w) values weights).sum % 11 < 2 then 0
  else 11 - (List.zipWith (fun v w => v * w) values weights).sum % 11

/-! ### Basic lemmas -/

theorem all_of_subset {s t : List Char} {f : Char → Bool} (h : t ⊆ s)
    (hs : s.all f = true) : t.all f = true := by
  rw [List.all_eq_true] at hs ⊢
  exact fun c hc => hs c (h hc)

theorem all_imp {s : List Char} {f g : Char → Bool}
    (hfg : ∀ c, f c = true → g c = true) (hs : s.all f = true) :
    s.all g = true := by
  rw [List.all_eq_true] at hs ⊢
  exact fun c hc => hfg c (hs c hc)

theorem digit_isAlnum (c : Char) (h : isDigitChar c = true) :
    isAlnumUpper c = true := by
  simp [isAlnumUpper, h]

theorem digitOfTotal_le (total : Nat) : digitOfTotal total ≤ 9 := by
  unfold digitOfTotal
  have h : total % 11 < 11 := Nat.mod_lt _ (by omega)
  split <;> omega

theorem natDigits_of_le9 : ∀ n, n ≤ 9 → natDigits n = [Nat.digitChar n] := by
  decide

theorem digitChar_isDigit : ∀ n, n ≤ 9 →
    isDigitChar (Nat.digitChar n) = true := by
  decide

/-! ### The CPF check-digit calculator against the spec formula -/

theorem cpf_weightedSum_eq (p : List Char) (w : List Nat)
    (h : p.all isDigitChar = true) :
    CPF.weightedSum p w =
      .ok ((List.zipWith (fun c k => specCharValue c * k) p w).sum) := by
  induction p generalizing w with
  | nil => cases w <;> simp [CPF.weightedSum]
  | cons c cs ih =>
      rw [List.all_cons, Bool.and_eq_true] at h
      cases w with
      | nil => simp [CPF.weightedSum]
      | cons k ks =>
          simp [CPF.weightedSum, CPF.intChar, h.1, ih ks h.2, specCharValue,
            digitVal]

theorem cpf_calculateDigit_eq9 (p : List Char) (h : p.all isDigitChar = true)
    (hl : p.length = 9) :
    CPF.calculateDigit p =
      .ok (specCheckDigit (p.map specCharValue) CPF.SEQUENCE1) := by
  simp [CPF.calculateDigit, hl, cpf_weightedSum_eq p _ h, specCheckDigit,
    digitOfTotal, List.zipWith_map_left]

theorem cpf_calculateDigit_eq10 (p : List Char) (h : p.all isDigitChar = true)
    (hl : p.length = 10) :
    CPF.calculateDigit p =
      .ok (specCheckDigit (p.map specCharValue) CPF.SEQUENCE2) := by
  simp [CPF.calculateDigit, hl, cpf_weightedSum_eq p _ h, specCheckDigit,
    digitOfTotal, List.zipWith_map_left]

theorem cpf_calculateDigit_badLength (p : List Char)
    (h9 : p.length ≠ 9) (h10 : p.length ≠ 10) :
    CPF.calculateDigit p = .error .partialLength := by
  simp [CPF.calculateDigit, h9, h10]

/-! ### The CNPJ check-digit calculator against the spec formula -/

theorem cnpj_charValue_eq (c : Char) (h : isAlnumUpper c = true) :
    CNPJ.characterToValue c = .ok (specCharValue c) := by
  rw [isAlnumUpper, Bool.or_eq_true, isDigitChar, isUpperAZ] at h
  simp only [Bool.and_eq_true, decide_eq_true_eq] at h
  unfold CNPJ.characterToValue
  rw [if_pos]
  · simp only [Except.ok.injEq, specCharValue]
    omega
  · simp only [Bool.or_eq_true, Bool.and_eq_true, decide_eq_true_eq]
    omega

theorem cnpj_weightedSum_eq (p : List Char) (w : List Nat)
    (h : p.all isAlnumUpper = true) :
    CNPJ.weightedSum p w =
      .ok ((List.zipWith (fun c k => specCharValue c * k) p w).sum) := by
  induction p generalizing w with
  | nil => cases w <;> simp [CNPJ.weightedSum]
  | cons c cs ih =>
      rw [List.all_cons, Bool.and_eq_true] at h
      cases w with
      | nil => simp [CNPJ.weightedSum]
      | cons k ks =>
          simp [CNPJ.weightedSum, cnpj_charValue_eq c h.1, ih ks h.2]

theorem cnpj_calculateDigit_eq12 (p : List Char)
    (h : p.all isAlnumUpper = true) (hl : p.length = 12) :
    CNPJ.calculateDigit p =
      .ok (specCheckDigit (p.map specCharValue) CNPJ.SEQUENCE1) := by
  simp [CNPJ.calculateDigit, hl, cnpj_weightedSum_eq p _ h, specCheckDigit,
    digitOfTotal, List.zipWith_map_left]

theorem cnpj_calculateDigit_eq13 (p : List Char)
    (h : p.all isAlnumUpper = true) (hl : p.length = 13) :
    CNPJ.calculateDigit p =
      .ok (specCheckDigit (p.map specCharValue) CNPJ.SEQUENCE2) := by
  simp [CNPJ.calculateDigit, hl, cnpj_weightedSum_eq p _ h, specCheckDigit,
    digitOfTotal, List.zipWith_map_left]

theorem cnpj_calculateDigit_badLength (p : List Char)
    (h12 : p.length ≠ 12) (h13 : p.length ≠ 13) :
    CNPJ.calculateDigit p = .error .partialLength := by
  simp [CNPJ.calculateDigit, h12, h13]

/-! ### Bounds and shape lemmas -/

theorem specCheckDigit_le (v w : List Nat) : specCheckDigit v w ≤ 9 := by
  unfold specCheckDigit
  have h : (List.zipWith (fun a b => a * b) v w).sum % 11 < 11 :=
    Nat.mod_lt _ (by omega)
  split <;> omega

theorem cpf_calculateDigit_le9 (p : List Char) (d : Nat)
    (h : CPF.calculateDigit p = .ok d) : d ≤ 9 := by
  unfold CPF.calculateDigit at h
  split at h
  · split at h
    · exact absurd h (by simp)
    · rw [Except.ok.injEq] at h
      exact h ▸ digitOfTotal_le _
  · split at h
    · split at h
      · exact absurd h (by simp)
      · rw [Except.ok.injEq] at h
        exact h ▸ digitOfTotal_le _
    · exact absurd h (by simp)

theorem cnpj_calculateDigit_le9 (p : List Char) (d : Nat)
    (h : CNPJ.calculateDigit p = .ok d) : d ≤ 9 := by
  unfold CNPJ.calculateDigit at h
  split at h
  · split at h
    · exact absurd h (by simp)
    · rw [Except.ok.injEq] at h
      exact h ▸ digitOfTotal_le _
  · split at h
    · split at h
      · exact absurd h (by simp)
      · rw [Except.ok.injEq] at h
        exact h ▸ digitOfTotal_le _
    · exact absurd h (by simp)

theorem cpf_normalize_shape (i : PyInput) (ds : List Char)
    (h : CPF.validateInputFormat i = .ok ds) :
    ds.length = 11 ∧ ds.all isDigitChar = true := by
  cases i with
  | other => simp [CPF.validateInputFormat] at h
  | int n =>
      simp only [CPF.validateInputFormat] at h
      split at h
      · rename_i hcond
        rw [Except.ok.injEq] at h
        subst h
        simp only [Bool.and_eq_true, decide_eq_true_eq, pyIsdigit] at hcond
        exact ⟨hcond.1, hcond.2.2⟩
      · simp at h
  | str s =>
      simp only [CPF.validateInputFormat] at h
      split at h
      · rename_i hcond
        rw [Except.ok.injEq] at h
        subst h
        simp only [Bool.and_eq_true, decide_eq_true_eq, pyIsdigit] at hcond
        exact ⟨hcond.1, hcond.2.2⟩
      · simp at h

theorem cnpj_normalize_shape (i : PyInput) (c : List Char)
    (h : CNPJ.validateInputFormat i = .ok c) :
    c.length = 14 ∧ c.all isAlnumUpper = true := by
  cases i with
  | other => simp [CNPJ.validateInputFormat] at h
  | int n =>
      simp only [CNPJ.validateInputFormat] at h
      split at h
      · rename_i hcond
        rw [Except.ok.injEq] at h
        subst h
        simp only [Bool.and_eq_true, decide_eq_true_eq, pyIsdigit] at hcond
        exact ⟨hcond.1, all_imp digit_isAlnum hcond.2.2⟩
      · simp at h
  | str s =>
      simp only [CNPJ.validateInputFormat] at h
      split at h
      · simp at h
      · split at h
        · simp at h
        · rename_i hlen hall
          rw [Except.ok.injEq] at h
          subst h
          refine ⟨by omega, ?_⟩
          simpa using hall

/-! ### Computation and inversion lemmas for validate -/

theorem cpf_validate_eq (i : PyInput) (ds : List Char) (d1 d2 : Nat)
    (hn : CPF.validateInputFormat i = .ok ds) (hs : allSame ds = false)
    (hd1 : CPF.calculateDigit (ds.take 9) = .ok d1)
    (hd2 : CPF.calculateDigit (ds.take 9 ++ natDigits d1) = .ok d2) :
    CPF.validate i =
      if ds.drop (ds.length - 2) = natDigits d1 ++ natDigits d2 then
        .ok (some ds)
      else .ok none := by
  unfold CPF.validate
  rw [hn]
  simp only [hs, Bool.false_eq_true, if_false, hd1, hd2]

theorem cnpj_validate_eq (i : PyInput) (c : List Char) (d1 d2 : Nat)
    (hn : CNPJ.validateInputFormat i = .ok c) (hs : allSame c = false)
    (hd1 : CNPJ.calculateDigit (c.take 12) = .ok d1)
    (hd2 : CNPJ.calculateDigit (c.take 12 ++ natDigits d1) = .ok d2) :
    CNPJ.validate i =
      if c.drop (c.length - 2) = natDigits d1 ++ natDigits d2 then
        .ok (some c)
      else .ok none := by
  unfold CNPJ.validate
  rw [hn]
  simp only [hs, Bool.false_eq_true, if_false, hd1, hd2]

theorem cpf_validate_isOk (i : PyInput) : (CPF.validate i).isOk = true := by
  cases hn : CPF.validateInputFormat i with
  | error e => simp [CPF.validate, hn, Except.isOk, Except.toBool]
  | ok ds =>
      obtain ⟨hlen, hdig⟩ := cpf_normalize_shape i ds hn
      by_cases hs : allSame ds = true
      · simp [CPF.validate, hn, hs, Except.isOk, Except.toBool]
      · have hs' : allSame ds = false := by simpa using hs
        have ht9 : (ds.take 9).all isDigitChar = true :=
          all_of_subset (List.take_subset _ _) hdig
        have hl9 : (ds.take 9).length = 9 := by
          simp [List.length_take, hlen]
        have hd1 := cpf_calculateDigit_eq9 _ ht9 hl9
        have hle1 : specCheckDigit ((ds.take 9).map specCharValue)
            CPF.SEQUENCE1 ≤ 9 := specCheckDigit_le _ _
        have hnd1 := natDigits_of_le9 _ hle1
        have ht10 : (ds.take 9 ++
            natDigits (specCheckDigit ((ds.take 9).map specCharValue)
              CPF.SEQUENCE1)).all isDigitChar = true := by
          rw [List.all_append, Bool.and_eq_true]
          refine ⟨ht9, ?_⟩
          rw [hnd1]
          simp only [List.all_cons, List.all_nil, Bool.and_true]
          exact digitChar_isDigit _ hle1
        have hl10 : (ds.take 9 ++
            natDigits (specCheckDigit ((ds.take 9).map specCharValue)
              CPF.SEQUENCE1)).length = 10 := by
          rw [List.length_append, hnd1, hl9]
          rfl
        have hd2 := cpf_calculateDigit_eq10 _ ht10 hl10
        rw [cpf_validate_eq i ds _ _ hn hs' hd1 hd2]
        split <;> rfl

theorem cnpj_validate_isOk (i : PyInput) : (CNPJ.validate i).isOk = true := by
  cases hn : CNPJ.validateInputFormat i with
  | error e => simp [CNPJ.validate, hn, Except.isOk, Except.toBool]
  | ok c =>
      obtain ⟨hlen, hal⟩ := cnpj_normalize_shape i c hn
      by_cases hs : allSame c = true
      · simp [CNPJ.validate, hn, hs, Except.isOk, Except.toBool]
      · have hs' : allSame c = false := by simpa using hs
        have ht12 : (c.take 12).all isAlnumUpper = true :=
          all_of_subset (List.take_subset _ _) hal
        have hl12 : (c.take 12).length = 12 := by
          simp [List.length_take, hlen]
        have hd1 := cnpj_calculateDigit_eq12 _ ht12 hl12
        have hle1 : specCheckDigit ((c.take 12).map specCharValue)
            CNPJ.SEQUENCE1 ≤ 9 := specCheckDigit_le _ _
        have hnd1 := natDigits_of_le9 _ hle1
        have ht13 : (c.take 12 ++
            natDigits (specCheckDigit ((c.take 12).map specCharValue)
              CNPJ.SEQUENCE1)).all isAlnumUpper = true := by
          rw [List.all_append, Bool.and_eq_true]
          refine ⟨ht12, ?_⟩
          rw [hnd1]
          simp only [List.all_cons, List.all_nil, Bool.and_true]
          exact digit_isAlnum _ (digitChar_isDigit _ hle1)
        have hl13 : (c.take 12 ++
            natDigits (specCheckDigit ((c.take 12).map specCharValue)
              CNPJ.SEQUENCE1)).length = 13 := by
          rw [List.length_append, hnd1, hl12]
          rfl
        have hd2 := cnpj_calculateDigit_eq13 _ ht13 hl13
        rw [cnpj_validate_eq i c _ _ hn hs' hd1 hd2]
        split <;> rfl

theorem cpf_validate_some_normalize (i : PyInput) (s : List Char)
    (h : CPF.validate i = .ok (some s)) :
    CPF.validateInputFormat i = .ok s := by
  cases hn : CPF.validateInputFormat i with
  | error e =>
      simp only [CPF.validate, hn] at h
      simp at h
  | ok ds =>
      simp only [CPF.validate, hn] at h
      split at h
      · simp at h
      · split at h
        · simp at h
        · split at h
          · simp at h
          · split at h
            · rw [Except.ok.injEq, Option.some.injEq] at h
              subst h
              rfl
            · simp at h

theorem cnpj_validate_some_inv (i : PyInput) (c : List Char)
    (h : CNPJ.validate i = .ok (some c)) :
    CNPJ.validateInputFormat i = .ok c ∧ allSame c = false ∧
      ∃ d1 d2, CNPJ.calculateDigit (c.take 12) = .ok d1 ∧
        CNPJ.calculateDigit (c.take 12 ++ natDigits d1) = .ok d2 ∧
        c.drop (c.length - 2) = natDigits d1 ++ natDigits d2 := by
  cases hn : CNPJ.validateInputFormat i with
  | error e =>
      simp only [CNPJ.validate, hn] at h
      simp at h
  | ok c0 =>
      simp only [CNPJ.validate, hn] at h
      split at h
      · simp at h
      · rename_i hs
        split at h
        · simp at h
        · rename_i d1 hd1
          split at h
          · simp at h
          · rename_i d2 hd2
            split at h
            · rename_i hdv
              rw [Except.ok.injEq, Option.some.injEq] at h
              subst h
              exact ⟨rfl, by simpa using hs, d1, d2, hd1, hd2, hdv⟩
            · simp at h

/-! ### Normalization is the identity on clean 14-character CNPJ strings -/

theorem pyUpperChar_fixed (c : Char) (h : isAlnumUpper c = true) :
    pyUpperChar c = c := by
  unfold pyUpperChar
  split
  · rename_i hlow
    exfalso
    simp only [isAlnumUpper, isDigitChar, isUpperAZ, Bool.or_eq_true,
      Bool.and_eq_true, decide_eq_true_eq] at h
    simp only [isLowerAZ, Bool.and_eq_true, decide_eq_true_eq] at hlow
    omega
  · rfl

theorem pyUpper_fixed (s : List Char) (hall : s.all isAlnumUpper = true) :
    pyUpper s = s := by
  induction s with
  | nil => rfl
  | cons c cs ih =>
      rw [List.all_cons, Bool.and_eq_true] at hall
      show pyUpperChar c :: pyUpper cs = c :: cs
      rw [pyUpperChar_fixed c hall.1, ih hall.2]

theorem stripPunct_fixed (s : List Char) (hall : s.all isAlnumUpper = true) :
    stripPunct s = s := by
  unfold stripPunct
  rw [List.filter_eq_self]
  intro c hc
  have hcAl : isAlnumUpper c = true := by
    rw [List.all_eq_true] at hall
    exact hall c hc
  have h48 : 48 ≤ c.toNat := by
    simp only [isAlnumUpper, isDigitChar, isUpperAZ, Bool.or_eq_true,
      Bool.and_eq_true, decide_eq_true_eq] at hcAl
    omega
  simp only [isPyWhitespace, Bool.not_eq_true', Bool.or_eq_false_iff,
    decide_eq_false_iff_not]
  and_intros <;> (rintro rfl; exact absurd h48 (by decide))

theorem cnpj_normalize_clean (s : List Char) (hlen : s.length = 14)
    (hall : s.all isAlnumUpper = true) :
    CNPJ.validateInputFormat (.str s) = .ok s := by
  simp [CNPJ.validateInputFormat, pyUpper_fixed s hall,
    stripPunct_fixed s hall, hlen, hall]

theorem cnpj_format_clean (s : List Char) (hlen : s.length = 14)
    (hall : s.all isAlnumUpper = true) :
    CNPJ.format (.str s) = .ok (CNPJ.render s) := by
  simp only [CNPJ.format, cnpj_normalize_clean s hlen hall]

/-! ### Lemmas on the release-time extraction and the 429 retry -/

theorem extract_noMatch (msg : List Char) (now : Int)
    (h : reSearchTs msg = none) :
    extractAndWaitForRelease msg now = .error .noReleaseDate := by
  simp [extractAndWaitForRelease, h]

theorem extract_match (msg : List Char) (now : Int) (g : TsGroups) (R : Int)
    (hm : reSearchTs msg = some g) (hp : parseReleaseInstant g = .ok R) :
    extractAndWaitForRelease msg now =
      .ok (if R - now ≤ 0 then 0 else R - now) := by
  simp only [extractAndWaitForRelease, hm, hp]
  by_cases hw : R - now ≤ 0 <;> simp [hw]

theorem extract_nonneg (msg : List Char) (now : Int) (w : Int)
    (h : extractAndWaitForRelease msg now = .ok w) : 0 ≤ w := by
  unfold extractAndWaitForRelease at h
  split at h
  · simp at h
  · split at h
    · simp at h
    · split at h
      · rw [Except.ok.injEq] at h
        omega
      · rename_i hw
        rw [Except.ok.injEq] at h
        omega

theorem investigate_429_retry (cnpj : List Char) (now : Int) (body : ApiBody)
    (rest : List HttpOutcome) (w : Int)
    (hw : extractAndWaitForRelease (body.detalhes.getD []) now = .ok w) :
    CNPJ.investigateAux cnpj now (.resp 429 body :: rest) =
      CNPJ.investigateAux cnpj now rest := by
  simp only [CNPJ.investigateAux]
  rw [if_neg (by decide : ¬((429 : Nat) = 200)),
    if_neg (by decide : ¬((429 : Nat) = 404)),
    if_pos trivial, hw]

theorem investigate_429_extract_error (cnpj : List Char) (now : Int)
    (body : ApiBody) (rest : List HttpOutcome) (e : CnpjError)
    (he : extractAndWaitForRelease (body.detalhes.getD []) now = .error e) :
    CNPJ.investigateAux cnpj now (.resp 429 body :: rest) = .error e := by
  simp only [CNPJ.investigateAux]
  rw [if_neg (by decide : ¬((429 : Nat) = 200)),
    if_neg (by decide : ¬((429 : Nat) = 404)),
    if_pos trivial, he]

/-! ### Lemma computing find_matrix once validation succeeded -/

theorem findMatrix_eq (i : PyInput) (c : List Char) (d1 d2 : Nat)
    (hv : CNPJ.validate i = .ok (some c))
    (hd1 : CNPJ.calculateDigit (c.take 8 ++ chars ("0001")) = .ok d1)
    (hd2 : CNPJ.calculateDigit ((c.take 8 ++ chars ("0001")) ++ natDigits d1) =
      .ok d2) :
    CNPJ.findMatrix i =
      CNPJ.format (.str ((c.take 8 ++ chars ("0001")) ++ natDigits d1
        ++ natDigits d2)) := by
  simp only [CNPJ.findMatrix, hv, hd1, hd2]

/-! ### The claims -/

/-- Claim C1: for every partial identifier of the allowed lengths (CPF: 9
or 10 digits; CNPJ: 12 or 13 characters over 0-9/A-Z), the check-digit
calculation maps each character to its value (CPF: face value; CNPJ:
digits as-is and letters A-Z as 17-42 via code point minus 48), multiplies
positionally by the weight sequence selected by the length, sums, takes
the remainder mod 11, and returns 0 if the remainder is less than 2, else
11 minus the remainder; any other partial length raises a FormatError. -/
theorem C1_check_digit_algorithm (p q : List Char)
    (hp : p.all isDigitChar = true) (hq : q.all isAlnumUpper = true) :
    (∀ c, isAlnumUpper c = true →
      CNPJ.characterToValue c = .ok (specCharValue c)) ∧
    (p.length = 9 → CPF.calculateDigit p =
      .ok (specCheckDigit (p.map specCharValue) CPF.SEQUENCE1)) ∧
    (p.length = 10 → CPF.calculateDigit p =
      .ok (specCheckDigit (p.map specCharValue) CPF.SEQUENCE2)) ∧
    (p.length ≠ 9 → p.length ≠ 10 →
      CPF.calculateDigit p = .error .partialLength) ∧
    (q.length = 12 → CNPJ.calculateDigit q =
      .ok (specCheckDigit (q.map specCharValue) CNPJ.SEQUENCE1)) ∧
    (q.length = 13 → CNPJ.calculateDigit q =
      .ok (specCheckDigit (q.map specCharValue) CNPJ.SEQUENCE2)) ∧
    (q.length ≠ 12 → q.length ≠ 13 →
      CNPJ.calculateDigit q = .error .partialLength) :=
  ⟨fun c hc => cnpj_charValue_eq c hc,
   fun hl => cpf_calculateDigit_eq9 p hp hl,
   fun hl => cpf_calculateDigit_eq10 p hp hl,
   cpf_calculateDigit_badLength p,
   fun hl => cnpj_calculateDigit_eq12 q hq hl,
   fun hl => cnpj_calculateDigit_eq13 q hq hl,
   cnpj_calculateDigit_badLength q⟩

/-- Witness for claim C1, at the 9-digit CPF partial 111444777 and the
12-character alphanumeric CNPJ partial ABC123450001. -/
theorem C1_check_digit_algorithm_witness :
    (∀ c, isAlnumUpper c = true →
      CNPJ.characterToValue c = .ok (specCharValue c)) ∧
    ((chars ("111444777")).length = 9 →
      CPF.calculateDigit (chars ("111444777")) =
      .ok (specCheckDigit ((chars ("111444777")).map specCharValue)
        CPF.SEQUENCE1)) ∧
    ((chars ("111444777")).length = 10 →
      CPF.calculateDigit (chars ("111444777")) =
      .ok (specCheckDigit ((chars ("111444777")).map specCharValue)
        CPF.SEQUENCE2)) ∧
    ((chars ("111444777")).length ≠ 9 → (chars ("111444777")).length ≠ 10 →
      CPF.calculateDigit (chars ("111444777")) = .error .partialLength) ∧
    ((chars ("ABC123450001")).length = 12 →
      CNPJ.calculateDigit (chars ("ABC123450001")) =
      .ok (specCheckDigit ((chars ("ABC123450001")).map specCharValue)
        CNPJ.SEQUENCE1)) ∧
    ((chars ("ABC123450001")).length = 13 →
      CNPJ.calculateDigit (chars ("ABC123450001")) =
      .ok (specCheckDigit ((chars ("ABC123450001")).map specCharValue)
        CNPJ.SEQUENCE2)) ∧
    ((chars ("ABC123450001")).length ≠ 12 →
      (chars ("ABC123450001")).length ≠ 13 →
      CNPJ.calculateDigit (chars ("ABC123450001")) = .error .partialLength) :=
  C1_check_digit_algorithm (chars ("111444777")) (chars ("ABC123450001"))
    (by decide) (by decide)

/-- Claim C2: the primary validate entry points never raise for malformed
input of any type (string, integer or other) — the result is always an
ordinary value, boolean-false for bad input — and a valid identifier comes
back as its normalized form, with validateCpf of 11144477735 returning
exactly that string. -/
theorem C2_validate_never_raises (i j : PyInput) (s : List Char) :
    (CPF.validate i).isOk = true ∧ (CNPJ.validate j).isOk = true ∧
    (CPF.validate i = .ok (some s) → CPF.validateInputFormat i = .ok s) ∧
    CPF.validate (.str (chars ("11144477735"))) =
      .ok (some (chars ("11144477735"))) :=
  ⟨cpf_validate_isOk i, cnpj_validate_isOk j,
   cpf_validate_some_normalize i s, by decide⟩

/-- Witness for claim C2, at the reference CPF, an arbitrary other-typed
CNPJ input, and the normalized reference string. -/
theorem C2_validate_never_raises_witness :
    (CPF.validate (.str (chars ("11144477735")))).isOk = true ∧
    (CNPJ.validate .other).isOk = true ∧
    (CPF.validate (.str (chars ("11144477735"))) =
        .ok (some (chars ("11144477735"))) →
      CPF.validateInputFormat (.str (chars ("11144477735"))) =
        .ok (chars ("11144477735"))) ∧
    CPF.validate (.str (chars ("11144477735"))) =
      .ok (some (chars ("11144477735"))) :=
  C2_validate_never_raises (.str (chars ("11144477735"))) .other
    (chars ("11144477735"))

/-- Claim C3 exhibit (code bug): the legacy CNPJValidator.validate_cnpj has
no all-characters-identical rejection and accepts the all-zeros CNPJ (as a
string and as the integer 0), whose checksum recomputes to 00, while the
primary CNPJ.validate and CPF.validate reject all-identical identifiers. -/
theorem C3_all_equal_rejection_bug :
    Legacy.validateCnpj (.str (chars ("00000000000000"))) = .ok true ∧
    Legacy.validateCnpj (.int 0) = .ok true ∧
    CNPJ.validate (.str (chars ("00000000000000"))) = .ok none ∧
    CPF.validate (.str (chars ("00000000000"))) = .ok none := by decide

/-- Claim C4 exhibit (code bug): the legacy CNPJValidator.investigate
catches every transport exception and returns None — the not-found result
— although its own docstring says they are raised; the primary client
re-raises each transport failure preserving its kind, but returns None for
a non-error status outside 200/404/429 such as 201 instead of raising; the
primary entry point returns None for invalid input without touching the
network. -/
theorem C4_transport_error_handling :
    Legacy.investigate (.str (chars ("11222333000181"))) 0 [.sslError] =
      .ok none ∧
    Legacy.investigate (.str (chars ("11222333000181"))) 0 [.timeoutError] =
      .ok none ∧
    Legacy.investigate (.str (chars ("11222333000181"))) 0
      [.connectionError] = .ok none ∧
    Legacy.investigate (.str (chars ("11222333000181"))) 0 [.requestError] =
      .ok none ∧
    CNPJ.investigate (.str (chars ("11222333000181"))) 0 [.sslError] =
      .error .ssl ∧
    CNPJ.investigate (.str (chars ("11222333000181"))) 0 [.timeoutError] =
      .error .timedOut ∧
    CNPJ.investigate (.str (chars ("11222333000181"))) 0 [.connectionError] =
      .error .connection ∧
    CNPJ.investigate (.str (chars ("11222333000181"))) 0 [.requestError] =
      .error .requestFail ∧
    CNPJ.investigateAux (chars ("11222333000181")) 0 [.resp 201 ⟨none, none⟩] =
      .ok none ∧
    CNPJ.investigate (.str (chars ("123"))) 0 [.sslError] = .ok none := by
  decide

/-- Claim C5 (amended): the release-time extraction raises a fatal error
when the fixed timestamp pattern is not found, otherwise returns the wait
releaseInstant minus currentInstant clamped to exactly 0 when the release
is already past (never negative); the primary gemini client then retries
the same request after the wait, and an extraction error propagates. -/
theorem C5_release_wait_and_retry (msg : List Char) (now : Int)
    (g : TsGroups) (R : Int) (cnpj : List Char) (body : ApiBody)
    (rest : List HttpOutcome) :
    (reSearchTs msg = none →
      extractAndWaitForRelease msg now = .error .noReleaseDate) ∧
    (reSearchTs msg = some g → parseReleaseInstant g = .ok R →
      extractAndWaitForRelease msg now =
        .ok (if R - now ≤ 0 then 0 else R - now)) ∧
    (reSearchTs msg = some g → parseReleaseInstant g = .ok R → R ≤ now →
      extractAndWaitForRelease msg now = .ok 0) ∧
    (∀ w, extractAndWaitForRelease msg now = .ok w → 0 ≤ w) ∧
    (∀ w, extractAndWaitForRelease (body.detalhes.getD []) now = .ok w →
      CNPJ.investigateAux cnpj now (.resp 429 body :: rest) =
        CNPJ.investigateAux cnpj now rest) ∧
    (∀ e, extractAndWaitForRelease (body.detalhes.getD []) now = .error e →
      CNPJ.investigateAux cnpj now (.resp 429 body :: rest) = .error e) := by
  refine ⟨extract_noMatch msg now, extract_match msg now g R, ?_, ?_, ?_, ?_⟩
  · intro hm hp hR
    rw [extract_match msg now g R hm hp, if_pos (by omega)]
  · intro w hw
    exact extract_nonneg msg now w hw
  · intro w hw
    exact investigate_429_retry cnpj now body rest w hw
  · intro e he
    exact investigate_429_extract_error cnpj now body rest e he

/-- Witness for claim C5: a message with no timestamp errors out, and a
message carrying a past GMT-0300 timestamp resolves to a wait of exactly
0 seconds. -/
theorem C5_release_wait_and_retry_witness :
    extractAndWaitForRelease (chars ("sem data")) 0 =
      .error .noReleaseDate ∧
    extractAndWaitForRelease
      (chars ("Liberado em Mon Oct 27 2025 14:30:00 GMT-0300 fim"))
      99999999999 = .ok 0 :=
  ⟨(C5_release_wait_and_retry (chars ("sem data")) 0
      ⟨[], [], 0, 0, 0, 0, 0, false, 0, 0⟩ 0 [] ⟨none, none⟩ []).1 (by decide),
   (C5_release_wait_and_retry
      (chars ("Liberado em Mon Oct 27 2025 14:30:00 GMT-0300 fim"))
      99999999999
      ⟨chars ("Mon"), chars ("Oct"), 27, 2025, 14, 30, 0, true, 3, 0⟩
      63897269400 [] ⟨none, none⟩ []).2.2.1 (by decide) (by decide)
      (by decide)⟩

/-- Counterexample to claim C5 as stated: after a 429 with an extractable
past release time, the legacy CNPJValidator.investigate sleeps out the
wait and returns None without retrying — a retry would have returned the
body of the following 200 response, as the primary client does on the
same oracle. -/
theorem C5_counterexample_legacy_no_retry :
    Legacy.investigate (.str (chars ("11222333000181"))) 99999999999
      [.resp 429 ⟨some (chars ("Erro")),
        some (chars ("Liberado em Mon Oct 27 2025 14:30:00 GMT-0300 fim"))⟩,
       .resp 200 ⟨none, none⟩] = .ok none ∧
    Legacy.investigate (.str (chars ("11222333000181"))) 99999999999
      [.resp 200 ⟨none, none⟩] = .ok (some ⟨none, none⟩) ∧
    CNPJ.investigate (.str (chars ("11222333000181"))) 99999999999
      [.resp 429 ⟨some (chars ("Erro")),
        some (chars ("Liberado em Mon Oct 27 2025 14:30:00 GMT-0300 fim"))⟩,
       .resp 200 ⟨none, none⟩] = .ok (some ⟨none, none⟩) := by decide

/-- Claim C6 exhibit (code bug): CPF normalization strips the minus sign of
a negative integer whose absolute value renders to exactly 11 digits, so
CPF.validate(-11144477735) returns the valid CPF instead of raising or
returning False (the repository test expects False); CNPJ normalization
rejects every negative integer, and overwide integers raise for both. -/
theorem C6_negative_int_normalization :
    CPF.validateInputFormat (.int (-11144477735)) =
      .ok (chars ("11144477735")) ∧
    CPF.validate (.int (-11144477735)) = .ok (some (chars ("11144477735"))) ∧
    CPF.validateInputFormat (.int (-5)) = .error .badFormat ∧
    CNPJ.validateInputFormat (.int (-11222333000181)) = .error .intFormat ∧
    CNPJ.validateInputFormat (.int (-1)) = .error .intFormat ∧
    CPF.validateInputFormat (.int 123456789012) = .error .badFormat ∧
    CNPJ.validateInputFormat (.int 123456789012345) = .error .intFormat := by
  decide

/-- Claim C7: for every input that validates as a CNPJ, find_matrix
returns the formatted CNPJ built from the input's first 8 characters, the
literal branch suffix 0001 and two recomputed check digits; when the
input's branch suffix is already 0001 the result is the formatted input
itself; an input that fails validation raises a validation error. -/
theorem C7_find_matrix_headquarters (i : PyInput) (r : Option (List Char))
    (c : List Char) (hv : CNPJ.validate i = .ok r) :
    (r = none → CNPJ.findMatrix i = .error .invalidBranch) ∧
    (r = some c →
      (∃ d1 d2, CNPJ.calculateDigit (c.take 8 ++ chars ("0001")) = .ok d1 ∧
        CNPJ.calculateDigit ((c.take 8 ++ chars ("0001")) ++ natDigits d1) =
          .ok d2 ∧
        CNPJ.findMatrix i = .ok (CNPJ.render ((c.take 8 ++ chars ("0001"))
          ++ natDigits d1 ++ natDigits d2))) ∧
      ((c.drop 8).take 4 = chars ("0001") →
        CNPJ.findMatrix i = .ok (CNPJ.render c))) := by
  refine ⟨fun hr => ?_, fun hr => ?_⟩
  · subst hr
    simp only [CNPJ.findMatrix, hv]
  · subst hr
    obtain ⟨hn, hsame, d1', d2', hd1', hd2', hdv⟩ :=
      cnpj_validate_some_inv i c hv
    obtain ⟨hlen, hal⟩ := cnpj_normalize_shape i c hn
    have h0001 : (chars ("0001")).length = 4 := by decide
    have hpm_len : (c.take 8 ++ chars ("0001")).length = 12 := by
      rw [List.length_append, List.length_take, hlen, h0001]
      omega
    have hpm_all : (c.take 8 ++ chars ("0001")).all isAlnumUpper = true := by
      rw [List.all_append, Bool.and_eq_true]
      exact ⟨all_of_subset (List.take_subset _ _) hal, by decide⟩
    obtain ⟨D1, hd1⟩ : ∃ d, CNPJ.calculateDigit (c.take 8 ++ chars ("0001"))
        = .ok d := ⟨_, cnpj_calculateDigit_eq12 _ hpm_all hpm_len⟩
    have hD1le : D1 ≤ 9 := cnpj_calculateDigit_le9 _ _ hd1
    have hnd1 := natDigits_of_le9 _ hD1le
    have hp13_len : ((c.take 8 ++ chars ("0001")) ++ natDigits D1).length
        = 13 := by
      rw [List.length_append, hpm_len, hnd1]
      rfl
    have hp13_all : ((c.take 8 ++ chars ("0001")) ++ natDigits D1).all
        isAlnumUpper = true := by
      rw [List.all_append, Bool.and_eq_true]
      refine ⟨hpm_all, ?_⟩
      rw [hnd1]
      simp only [List.all_cons, List.all_nil, Bool.and_true]
      exact digit_isAlnum _ (digitChar_isDigit _ hD1le)
    obtain ⟨D2, hd2⟩ : ∃ d, CNPJ.calculateDigit
        ((c.take 8 ++ chars ("0001")) ++ natDigits D1) = .ok d :=
      ⟨_, cnpj_calculateDigit_eq13 _ hp13_all hp13_len⟩
    have hD2le : D2 ≤ 9 := cnpj_calculateDigit_le9 _ _ hd2
    have hnd2 := natDigits_of_le9 _ hD2le
    have hfull_len : (((c.take 8 ++ chars ("0001")) ++ natDigits D1)
        ++ natDigits D2).length = 14 := by
      rw [List.length_append, hp13_len, hnd2]
      rfl
    have hfull_all : (((c.take 8 ++ chars ("0001")) ++ natDigits D1)
        ++ natDigits D2).all isAlnumUpper = true := by
      rw [List.all_append, Bool.and_eq_true]
      refine ⟨hp13_all, ?_⟩
      rw [hnd2]
      simp only [List.all_cons, List.all_nil, Bool.and_true]
      exact digit_isAlnum _ (digitChar_isDigit _ hD2le)
    have hfm : CNPJ.findMatrix i = .ok (CNPJ.render
        (((c.take 8 ++ chars ("0001")) ++ natDigits D1) ++ natDigits D2)) := by
      rw [findMatrix_eq i c D1 D2 hv hd1 hd2,
        cnpj_format_clean _ hfull_len hfull_all]
    refine ⟨⟨D1, D2, hd1, hd2, hfm⟩, fun hb => ?_⟩
    have htake : c.take 8 ++ chars ("0001") = c.take 12 := by
      rw [← hb]
      exact (List.take_add c 8 4).symm
    have ed1 : D1 = d1' := by
      rw [htake] at hd1
      exact Except.ok.inj (hd1.symm.trans hd1')
    have ed2 : D2 = d2' := by
      rw [htake, ed1] at hd2
      exact Except.ok.inj (hd2.symm.trans hd2')
    have hdrop : c.drop 12 = natDigits d1' ++ natDigits d2' := by
      rw [hlen] at hdv
      norm_num at hdv
      exact hdv
    have hfull_eq : ((c.take 8 ++ chars ("0001")) ++ natDigits D1)
        ++ natDigits D2 = c := by
      rw [htake, ed1, ed2, List.append_assoc, ← hdrop,
        List.take_append_drop]
    rw [hfm, hfull_eq]

/-- Witness for claim C7, at the headquarters CNPJ 11222333000181: its
matrix is itself, formatted. -/
theorem C7_find_matrix_headquarters_witness :
    CNPJ.findMatrix (.str (chars ("11222333000181"))) =
      .ok (CNPJ.render (chars ("11222333000181"))) :=
  ((C7_find_matrix_headquarters (.str (chars ("11222333000181")))
      (some (chars ("11222333000181"))) (chars ("11222333000181"))
      (by decide)).2 rfl).2 (by decide)

/-- Claim C9: a 14-character input over 0-9/A-Z whose last two characters
are not both decimal digits is reported by CNPJ.validate as
checksum-invalid (False) and never as a format error: normalization
accepts it, and the comparison against the computed check digits — always
rendered as two decimal digits — necessarily fails. -/
theorem C9_letter_check_digits (s : List Char) (hlen : s.length = 14)
    (hall : s.all isAlnumUpper = true)
    (hld : (s.drop 12).all isDigitChar = false) :
    CNPJ.validate (.str s) = .ok none := by
  have hn := cnpj_normalize_clean s hlen hall
  by_cases hs : allSame s = true
  · simp [CNPJ.validate, hn, hs]
  · have hs' : allSame s = false := by simpa using hs
    have ht12 : (s.take 12).all isAlnumUpper = true :=
      all_of_subset (List.take_subset _ _) hall
    have hl12 : (s.take 12).length = 12 := by
      simp [List.length_take, hlen]
    obtain ⟨d1, hd1⟩ : ∃ d, CNPJ.calculateDigit (s.take 12) = .ok d :=
      ⟨_, cnpj_calculateDigit_eq12 _ ht12 hl12⟩
    have hd1le := cnpj_calculateDigit_le9 _ _ hd1
    have hnd1 := natDigits_of_le9 _ hd1le
    have ht13 : (s.take 12 ++ natDigits d1).all isAlnumUpper = true := by
      rw [List.all_append, Bool.and_eq_true]
      refine ⟨ht12, ?_⟩
      rw [hnd1]
      simp only [List.all_cons, List.all_nil, Bool.and_true]
      exact digit_isAlnum _ (digitChar_isDigit _ hd1le)
    have hl13 : (s.take 12 ++ natDigits d1).length = 13 := by
      rw [List.length_append, hl12, hnd1]
      rfl
    obtain ⟨d2, hd2⟩ : ∃ d, CNPJ.calculateDigit (s.take 12 ++ natDigits d1)
        = .ok d := ⟨_, cnpj_calculateDigit_eq13 _ ht13 hl13⟩
    have hd2le := cnpj_calculateDigit_le9 _ _ hd2
    have hnd2 := natDigits_of_le9 _ hd2le
    rw [cnpj_validate_eq (.str s) s d1 d2 hn hs' hd1 hd2]
    have hne : ¬(s.drop (s.length - 2) = natDigits d1 ++ natDigits d2) := by
      intro heq
      rw [hlen] at heq
      norm_num at heq
      have hdig : (s.drop 12).all isDigitChar = true := by
        rw [heq, List.all_append, Bool.and_eq_true]
        refine ⟨?_, ?_⟩
        · rw [hnd1]
          simp only [List.all_cons, List.all_nil, Bool.and_true]
          exact digitChar_isDigit _ hd1le
        · rw [hnd2]
          simp only [List.all_cons, List.all_nil, Bool.and_true]
          exact digitChar_isDigit _ hd2le
      rw [hdig] at hld
      cases hld
    rw [if_neg hne]

/-- Witness for claim C9, at a 14-character input with letters in the two
check-digit positions. -/
theorem C9_letter_check_digits_witness :
    CNPJ.validate (.str (chars ("112223330001AB"))) = .ok none :=
  C9_letter_check_digits (chars ("112223330001AB")) (by decide) (by decide)
    (by decide)

/-- Claim C10: the format operation performs no checksum validation — it
succeeds exactly when normalization succeeds, returning the punctuated
rendering of the normalized characters, also for identifiers whose check
digits are wrong, and propagates the normalization error otherwise. -/
theorem C10_format_without_checksum (i j : PyInput) :
    (∀ c, CPF.validateInputFormat i = .ok c →
      CPF.format i = .ok (CPF.render c)) ∧
    (∀ e, CPF.validateInputFormat i = .error e → CPF.format i = .error e) ∧
    (∀ c, CNPJ.validateInputFormat j = .ok c →
      CNPJ.format j = .ok (CNPJ.render c)) ∧
    (∀ e, CNPJ.validateInputFormat j = .error e → CNPJ.format j = .error e) ∧
    (CPF.validate (.str (chars ("11144477736"))) = .ok none ∧
      CPF.format (.str (chars ("11144477736"))) =
        .ok (chars ("111.444.777-36"))) ∧
    (CNPJ.validate (.str (chars ("11222333000182"))) = .ok none ∧
      CNPJ.format (.str (chars ("11222333000182"))) =
        .ok (chars ("11.222.333/0001-82"))) := by
  refine ⟨fun c h => ?_, fun e h => ?_, fun c h => ?_, fun e h => ?_,
    by decide, by decide⟩
  · simp [CPF.format, h]
  · simp [CPF.format, h]
  · simp [CNPJ.format, h]
  · simp [CNPJ.format, h]

/-- Witness for claim C10, at a CPF and a CNPJ whose check digits are both
wrong: format still renders them. -/
theorem C10_format_without_checksum_witness :
    (∀ c, CPF.validateInputFormat (.str (chars ("11144477736"))) = .ok c →
      CPF.format (.str (chars ("11144477736"))) = .ok (CPF.render c)) ∧
    (∀ e, CPF.validateInputFormat (.str (chars ("11144477736"))) =
      .error e → CPF.format (.str (chars ("11144477736"))) = .error e) ∧
    (∀ c, CNPJ.validateInputFormat (.str (chars ("11222333000182"))) =
      .ok c → CNPJ.format (.str (chars ("11222333000182"))) =
        .ok (CNPJ.render c)) ∧
    (∀ e, CNPJ.validateInputFormat (.str (chars ("11222333000182"))) =
      .error e → CNPJ.format (.str (chars ("11222333000182"))) =
        .error e) ∧
    (CPF.validate (.str (chars ("11144477736"))) = .ok none ∧
      CPF.format (.str (chars ("11144477736"))) =
        .ok (chars ("111.444.777-36"))) ∧
    (CNPJ.validate (.str (chars ("11222333000182"))) = .ok none ∧
      CNPJ.format (.str (chars ("11222333000182"))) =
        .ok (chars ("11.222.333/0001-82"))) :=
  C10_format_without_checksum (.str (chars ("11144477736")))
    (.str (chars ("11222333000182")))

end CpfCnpj
